import Mathlib

/-!
Verification of the AES-Report-Analyzer mud-report dashboard (`src/app.py`).

The app's core logic is (1) pattern-based field extraction from PDF page text
(`safe_search`, `extract_volume_format`), (2) a batch upload loop with per-file
try/except isolation, and (3) per-row derived-metric columns plus a grouped
comparison table built over pandas.

Modelling decisions:
* Text is `List Char`.  The regex patterns of `app.py` use only a small subset
  of Python `re` syntax (case-insensitive literals, single-character classes,
  greedy and lazy quantifiers, one capture group per pattern), so they are
  embedded into a little backtracking engine (`caps`, `matchSeq`, `matchAt`,
  `search`) whose preference order mirrors Python's: leftmost match first,
  greedy quantifiers longest-first, lazy quantifiers shortest-first.
* Floating point is idealised as ℚ.  `float()` / `pd.Series` arithmetic is
  exact rational arithmetic; Python's `str(float)`/`float(str)` round-trip is
  modelled as the identity.
* `float(s)` on the character set reachable from the patterns (digits, '.',
  '-') is embedded as `pyFloat : String → Option ℚ`; `None` models a raised
  `ValueError`.
-/

/-- Quantifier attached to a single-character matcher, as used by the
patterns of `app.py`: exactly one, greedy `?`, greedy `*`, lazy `*?`,
greedy `+`. -/
inductive Quant where
  | one : Quant
  | opt : Quant
  | starG : Quant
  | starL : Quant
  | plusG : Quant
deriving Repr

/-- One element of a pattern: a single-character predicate with a quantifier.
Case-insensitivity (`re.IGNORECASE`) is baked into the predicates built by
`lit`. -/
structure RElem where
  test : Char → Bool
  quant : Quant

/-- Length of the maximal prefix of `s` whose characters satisfy `t`. -/
def maxRun (t : Char → Bool) : List Char → Nat
  | [] => 0
  | c :: rest => if t c then maxRun t rest + 1 else 0

/-- All ways one pattern element can consume a prefix of `s`, as the list of
remaining suffixes in Python's backtracking preference order (greedy:
longest first; lazy: shortest first). -/
def caps (e : RElem) (s : List Char) : List (List Char) :=
  match e.quant with
  | .one =>
    match s with
    | c :: rest => if e.test c then [rest] else []
    | [] => []
  | .opt =>
    match s with
    | c :: rest => if e.test c then [rest, s] else [s]
    | [] => [s]
  | .starG =>
    (List.range (maxRun e.test s + 1)).map (fun i => s.drop (maxRun e.test s - i))
  | .starL =>
    (List.range (maxRun e.test s + 1)).map (fun i => s.drop i)
  | .plusG =>
    (List.range (maxRun e.test s)).map (fun i => s.drop (maxRun e.test s - i))

/-- All ways a sequence of pattern elements can consume a prefix of `s`
(remaining suffixes, in backtracking preference order). -/
def matchSeq (es : List RElem) (s : List Char) : List (List Char) :=
  match es with
  | [] => [s]
  | e :: rest => (caps e s).flatMap (matchSeq rest)

/-- A pattern of `app.py`: elements before the single capture group, the
group's elements, and the elements after it. -/
structure Pattern where
  pre : List RElem
  grp : List RElem
  post : List RElem

/-- Match the pattern anchored at `s`; on success return the text consumed by
the capture group of the preferred (first, per backtracking order) match,
mirroring `match.group(1)`. -/
def matchAt (p : Pattern) (s : List Char) : Option (List Char) :=
  (matchSeq p.pre s).findSome? fun s1 =>
    (matchSeq p.grp s1).findSome? fun s2 =>
      if (matchSeq p.post s2).isEmpty then none
      else some (s1.take (s1.length - s2.length))

/-- `re.search`: try the pattern at every start position, leftmost first;
return the capture group of the first match.  Embeds
`re.search(pattern, text, re.IGNORECASE).group(1)`. -/
def search (p : Pattern) : List Char → Option (List Char)
  | [] => matchAt p []
  | c :: rest =>
    match matchAt p (c :: rest) with
    | some g => some g
    | none => search p rest

/-- The whitespace characters stripped by Python's `str.strip()` and matched
by `\s` (ASCII range, which covers the reports' text). -/
def isPySpace (c : Char) : Bool :=
  c == ' ' || c == '\t' || c == '\n' || c == '\r' || c == '\x0b' || c == '\x0c'

/-- Python `str.strip()`: drop leading and trailing whitespace. -/
def pyStrip (l : List Char) : List Char :=
  ((l.dropWhile isPySpace).reverse.dropWhile isPySpace).reverse

/-- `safe_search(pattern, text)` from `app.py`:
`match.group(1).strip()` if the case-insensitive search matches, else the
default string `"0"`. -/
def safe_search (p : Pattern) (text : List Char) : String :=
  match search p text with
  | some g => String.mk (pyStrip g)
  | none => "0"

/-- Numeric value of a digit list (most significant first). -/
def digitsVal (l : List Char) : Nat :=
  l.foldl (fun a c => a * 10 + (c.toNat - 48)) 0

/-- Unsigned part of Python float syntax over digits and at most one dot:
`D+`, `D+.D*`, `D*.D+`.  Any other character, or no digit at all, fails. -/
def parseUnsigned (l : List Char) : Option ℚ :=
  match l.dropWhile Char.isDigit with
  | [] => if l.isEmpty then none else some (digitsVal l)
  | '.' :: frac =>
    if frac.all Char.isDigit && (!(l.takeWhile Char.isDigit).isEmpty || !frac.isEmpty) then
      some ((digitsVal (l.takeWhile Char.isDigit) : ℚ) + (digitsVal frac : ℚ) / (10 : ℚ) ^ frac.length)
    else none
  | _ => none

/-- Python `float(s)` restricted to the character set reachable from the
patterns of `app.py` (sign, digits, dot; surrounding whitespace stripped).
`none` models a raised `ValueError`. -/
def pyFloat (s : String) : Option ℚ :=
  match pyStrip s.toList with
  | '-' :: rest => (parseUnsigned rest).map (fun q => -q)
  | '+' :: rest => parseUnsigned rest
  | l => parseUnsigned l

/-- `to_float(val, default=0.0)` from `app.py`: coercion failures silently
become `0.0`. -/
def to_float (s : String) : ℚ :=
  (pyFloat s).getD 0


/-- A literal string, matched case-insensitively character by character
(`re.IGNORECASE`). -/
def lit (s : String) : List RElem :=
  s.toList.map (fun c => { test := fun d => d.toLower == c.toLower, quant := .one })

/-- A character-class element with a quantifier. -/
def cls (t : Char → Bool) (q : Quant) : RElem :=
  { test := t, quant := q }

/-- The regex `.` (any character but a newline; `re.DOTALL` is not set). -/
def dotNoNL (c : Char) : Bool := c != '\n'

/-- The class `[\d.]`. -/
def digDot (c : Char) : Bool := c.isDigit || c == '.'

/-- The class `[\d.\-]`. -/
def digDotDash (c : Char) : Bool := c.isDigit || c == '.' || c == '-'

/-- The class `[\d,]`. -/
def digComma (c : Char) : Bool := c.isDigit || c == ','

/-- Pattern for the Well Name field: `Well Name.*?:?\s*(.*?)\n`. -/
def patWellName : Pattern :=
  { pre := lit "Well Name" ++ [cls dotNoNL .starL, cls (· == ':') .opt, cls isPySpace .starG]
    grp := [cls dotNoNL .starL]
    post := [cls (· == '\n') .one] }

/-- Pattern for the Rig Name field: `Rig Name.*?:?\s*(.*?)\n`. -/
def patRigName : Pattern :=
  { pre := lit "Rig Name" ++ [cls dotNoNL .starL, cls (· == ':') .opt, cls isPySpace .starG]
    grp := [cls dotNoNL .starL]
    post := [cls (· == '\n') .one] }

/-- Pattern for the Bit Size field: `Bit Data.*?Size\s*\n\s*(.*?)\s`. -/
def patBitSize : Pattern :=
  { pre := lit "Bit Data" ++ [cls dotNoNL .starL] ++ lit "Size"
             ++ [cls isPySpace .starG, cls (· == '\n') .one, cls isPySpace .starG]
    grp := [cls dotNoNL .starL]
    post := [cls isPySpace .one] }

/-- Pattern for the Depth field: `Drilled Depth\s*\n\s*([\d,]+)`. -/
def patDepth : Pattern :=
  { pre := lit "Drilled Depth"
             ++ [cls isPySpace .starG, cls (· == '\n') .one, cls isPySpace .starG]
    grp := [cls digComma .plusG]
    post := [] }

/-- Pattern for the Drilling Hrs field: `Hours\s*\n\s*([\d.]+)`. -/
def patDrillingHrs : Pattern :=
  { pre := lit "Hours" ++ [cls isPySpace .starG, cls (· == '\n') .one, cls isPySpace .starG]
    grp := [cls digDot .plusG]
    post := [] }

/-- Pattern for the Base Oil field: `Oil Added \(\+\)\s+([\d.]+)`. -/
def patBaseOil : Pattern :=
  { pre := lit "Oil Added (+)" ++ [cls isPySpace .plusG]
    grp := [cls digDot .plusG]
    post := [] }

/-- Pattern for the Water field: `Water Added \(\+\)\s+([\d.]+)`. -/
def patWater : Pattern :=
  { pre := lit "Water Added (+)" ++ [cls isPySpace .plusG]
    grp := [cls digDot .plusG]
    post := [] }

/-- Pattern for the Barite field: `Barite Added \(\+\)\s+([\d.]+)`. -/
def patBarite : Pattern :=
  { pre := lit "Barite Added (+)" ++ [cls isPySpace .plusG]
    grp := [cls digDot .plusG]
    post := [] }

/-- Pattern for the Chemical field: `Other Product Usage \(\+\)\s+([\d.]+)`. -/
def patChemical : Pattern :=
  { pre := lit "Other Product Usage (+)" ++ [cls isPySpace .plusG]
    grp := [cls digDot .plusG]
    post := [] }

/-- Pattern for the Losses field: `Left on Cuttings \(\-\)\s+([\d.\-]+)`.
Note the class admits the minus sign, so captured losses can be negative. -/
def patLosses : Pattern :=
  { pre := lit "Left on Cuttings (-)" ++ [cls isPySpace .plusG]
    grp := [cls digDotDash .plusG]
    post := [] }

/-- Pattern for the In Pits field: `In Pits\s+([\d.]+)\s*bbl`. -/
def patInPits : Pattern :=
  { pre := lit "In Pits" ++ [cls isPySpace .plusG]
    grp := [cls digDot .plusG]
    post := [cls isPySpace .starG] ++ lit "bbl" }

/-- Pattern for the In Hole field: `In Hole\s+([\d.]+)\s*bbl`. -/
def patInHole : Pattern :=
  { pre := lit "In Hole" ++ [cls isPySpace .plusG]
    grp := [cls digDot .plusG]
    post := [cls isPySpace .starG] ++ lit "bbl" }

/-- Pattern for the Mud Weight field: `MUD WT\s*([\d.]+)`. -/
def patMudWeight : Pattern :=
  { pre := lit "MUD WT" ++ [cls isPySpace .starG]
    grp := [cls digDot .plusG]
    post := [] }

/-- Pattern for the PV field: `Plastic Viscosity.*?@\s*\d+\s*°F\s*(\d+)`. -/
def patPV : Pattern :=
  { pre := lit "Plastic Viscosity"
             ++ [cls dotNoNL .starL, cls (· == '@') .one, cls isPySpace .starG,
                 cls Char.isDigit .plusG, cls isPySpace .starG]
             ++ lit "°F" ++ [cls isPySpace .starG]
    grp := [cls Char.isDigit .plusG]
    post := [] }

/-- Pattern for the YP field: `Yield Point.*?=\s*(\d+)`. -/
def patYP : Pattern :=
  { pre := lit "Yield Point" ++ [cls dotNoNL .starL, cls (· == '=') .one, cls isPySpace .starG]
    grp := [cls Char.isDigit .plusG]
    post := [] }

/-- Pattern for the Ave Temp field: `Flowline Temperature\s*°F\s*([\d.]+)`. -/
def patAveTemp : Pattern :=
  { pre := lit "Flowline Temperature" ++ [cls isPySpace .starG] ++ lit "°F"
             ++ [cls isPySpace .starG]
    grp := [cls digDot .plusG]
    post := [] }

/-- `s.replace(',', '')`: remove every comma. -/
def removeCommas (s : String) : String :=
  String.mk (s.toList.filter (fun c => c != ','))

/-- The field record built by `extract_volume_format` (the `data` dict).
All values are the extracted strings; `Total Circ` is
`str(float(data['In Pits']) + float(data['In Hole']))`, stored here as the
exact rational (Python's `str(float)`/`float(str)` round-trip is exact). -/
structure Record where
  wellName : String
  rigName : String
  bitSize : String
  depth : String
  drillingHrs : String
  baseOil : String
  water : String
  barite : String
  chemical : String
  losses : String
  inPits : String
  inHole : String
  totalCirc : ℚ
  mudWeight : String
  pv : String
  yp : String
  aveTemp : String

/-- `extract_volume_format(file)` from `app.py`, after the PDF has been
decoded and its page text concatenated (`text`).  The only statement that can
raise on a given `text` is `float(data['In Pits']) + float(data['In Hole'])`
(line 31): a capture that is not a valid float literal raises `ValueError`,
modelled as `Except.error`. -/
def extract_volume_format (text : List Char) : Except String Record :=
  match pyFloat (safe_search patInPits text), pyFloat (safe_search patInHole text) with
  | some a, some b =>
    .ok { wellName := safe_search patWellName text
          rigName := safe_search patRigName text
          bitSize := safe_search patBitSize text
          depth := removeCommas (safe_search patDepth text)
          drillingHrs := safe_search patDrillingHrs text
          baseOil := safe_search patBaseOil text
          water := safe_search patWater text
          barite := safe_search patBarite text
          chemical := safe_search patChemical text
          losses := safe_search patLosses text
          inPits := safe_search patInPits text
          inHole := safe_search patInHole text
          totalCirc := a + b
          mudWeight := safe_search patMudWeight text
          pv := safe_search patPV text
          yp := safe_search patYP text
          aveTemp := safe_search patAveTemp text }
  | _, _ => .error "could not convert string to float"

/-- One uploaded file: its name and the result of PDF decoding plus page-text
extraction (`fitz.open` + `page.get_text()`), which either yields the
concatenated text or raises. -/
structure UploadedFile where
  name : String
  content : Except String (List Char)

/-- Extraction of one uploaded file: decode, then `extract_volume_format`. -/
def parseFile (f : UploadedFile) : Except String Record :=
  match f.content with
  | .ok text => extract_volume_format text
  | .error e => .error e

/-- The upload loop of `app.py` (lines 51-56): for each file, try to extract a
record and append it; on exception report
`st.error(f"Failed to parse {file.name}: {e}")` and continue.  Returns the
record list (`records`) and the reported error messages, both in upload
order. -/
def processUploads : List UploadedFile → List Record × List String
  | [] => ([], [])
  | f :: rest =>
    let p := processUploads rest
    match parseFile f with
    | .ok r => (r :: p.1, p.2)
    | .error e => (p.1, ("Failed to parse " ++ f.name ++ ": " ++ e) :: p.2)

/-- One row of the dataframe after the numeric coercion loop (lines 63-65):
the listed columns are passed through `to_float`; `Total Circ` was stored as
`str(float(...))`, so coercion recovers the same rational. -/
structure Row where
  wellName : String
  rigName : String
  depth : ℚ
  drillingHrs : ℚ
  baseOil : ℚ
  water : ℚ
  barite : ℚ
  chemical : ℚ
  losses : ℚ
  totalCirc : ℚ
  pv : ℚ
  yp : ℚ
  mudWeight : ℚ
  aveTemp : ℚ

/-- Numeric coercion of one extracted record (the `df[col].apply(to_float)`
loop). -/
def toRow (r : Record) : Row :=
  { wellName := r.wellName
    rigName := r.rigName
    depth := to_float r.depth
    drillingHrs := to_float r.drillingHrs
    baseOil := to_float r.baseOil
    water := to_float r.water
    barite := to_float r.barite
    chemical := to_float r.chemical
    losses := to_float r.losses
    totalCirc := r.totalCirc
    pv := to_float r.pv
    yp := to_float r.yp
    mudWeight := to_float r.mudWeight
    aveTemp := to_float r.aveTemp }

/-- `Series.replace(0, 1)` applied pointwise: the zero-divisor guard of
`app.py`. -/
def guardZero (q : ℚ) : ℚ :=
  if q = 0 then 1 else q

/-- The denominator of the `DSRE%` formula (line 69):
`df['Total Dilution'] + df['Losses'].replace(0, 1)`.  Note the guard is
applied to `Losses`, not to the sum. -/
def dsreDenom (r : Row) : ℚ :=
  (r.baseOil + r.water + r.chemical) + guardZero r.losses

/-- A row of the derived table: the coerced row plus the computed columns of
lines 67-73. -/
structure DerivedRow extends Row where
  totalDilution : ℚ
  discardRatio : ℚ
  dsrePct : ℚ
  rop : ℚ
  mudCuttingRatio : ℚ
  topDeckSCE : ℚ
  bottomDeckSCE : ℚ

/-- The derived-column block of `app.py` (lines 67-73), per row:
`Total Dilution`, `Discard Ratio`, `DSRE%`, `ROP`, `Mud Cutting Ratio`,
`Top Deck SCE`, `Bottom Deck SCE`. -/
def deriveRow (r : Row) : DerivedRow :=
  { toRow := r
    totalDilution := r.baseOil + r.water + r.chemical
    discardRatio := r.losses / guardZero r.totalCirc
    dsrePct := (r.baseOil + r.water + r.chemical) / dsreDenom r * 100
    rop := r.depth / guardZero r.drillingHrs
    mudCuttingRatio := r.losses / guardZero r.totalCirc * 100
    topDeckSCE := r.losses * 0.6
    bottomDeckSCE := r.losses * 0.4 }

/-- The whole derived table: the derived columns are computed independently
per row. -/
def deriveTable (rows : List Row) : List DerivedRow :=
  rows.map deriveRow

/-- The `compare_mode` radio selection: group by `Well Name` or `Rig Name`. -/
inductive CompareMode where
  | wellName : CompareMode
  | rigName : CompareMode

/-- The grouping key of a derived row under the selected compare mode. -/
def modeKey (m : CompareMode) (r : DerivedRow) : String :=
  match m with
  | .wellName => r.wellName
  | .rigName => r.rigName

/-- The rows of one group: `df.groupby(compare_mode)` restricted to key `g`. -/
def groupRows (m : CompareMode) (g : String) (rows : List DerivedRow) : List DerivedRow :=
  rows.filter (fun r => modeKey m r == g)

/-- The `'ROP': 'mean'` aggregation of `comp_df` (lines 109-115) before
rounding: the sum of the group's ROP values over the group size. -/
def aggMeanROP (m : CompareMode) (g : String) (rows : List DerivedRow) : ℚ :=
  ((groupRows m g rows).map DerivedRow.rop).sum / ((groupRows m g rows).length : ℚ)

/-- Round-half-to-even to an integer, as numpy/pandas `round` does. -/
def roundHalfEven (q : ℚ) : ℤ :=
  if q - Int.floor q < 1 / 2 then Int.floor q
  else if 1 / 2 < q - Int.floor q then Int.floor q + 1
  else if Int.floor q % 2 = 0 then Int.floor q
  else Int.floor q + 1

/-- `.round(2)` from `comp_df` (line 115). -/
def round2 (q : ℚ) : ℚ :=
  (roundHalfEven (q * 100) : ℚ) / 100

/-- The mean-ROP entry of the comparison table `comp_df` for group `g`:
the aggregated mean, rounded to two decimals. -/
def compMeanROP (m : CompareMode) (g : String) (rows : List DerivedRow) : ℚ :=
  round2 (aggMeanROP m g rows)

/-- The arithmetic mean of a list of rationals, written from the spec's words
("compute per-group sum/mean") to compare against the code's aggregation. -/
def arithMean (l : List ℚ) : ℚ :=
  l.sum / (l.length : ℚ)

/-- Modelled from the spec: the wear-index derivation belongs to the
template-A extraction routine, which is not part of `src/app.py`.  Spec §4.2:
"Wear index (two variants: top and bottom deck) = weighted combination of
flow and rheology fields, divided by a guarded denominator; one variant is
additionally clipped to an upper bound of 100." -/
def wearIndexRaw (wf wr flow rheo denom : ℚ) : ℚ :=
  (wf * flow + wr * rheo) / guardZero denom

/-- Modelled from the spec: the clipped wear-index variant, the raw formula
clipped to the upper bound 100. -/
def wearIndexClipped (wf wr flow rheo denom : ℚ) : ℚ :=
  min (wearIndexRaw wf wr flow rheo denom) 100

/-- The `replace(0, 1)` guard never leaves a zero divisor. -/
theorem guardZero_ne_zero (q : ℚ) : guardZero q ≠ 0 := by
  unfold guardZero
  split
  · norm_num
  · assumption

/-- A sample coerced row with `Total Circ = 0` and `Losses = 7`. -/
def rowZeroCirc : Row :=
  { wellName := "W", rigName := "R", depth := 100, drillingHrs := 2, baseOil := 0,
    water := 0, barite := 0, chemical := 0, losses := 7, totalCirc := 0, pv := 0,
    yp := 0, mudWeight := 0, aveTemp := 0 }

/-- C3: for every row of the derived table, if `Total Circ` is 0 then the
`Discard Ratio` equals the `Losses` value exactly (the zero divisor is
replaced by 1 before division), and the guarded divisor is never zero, so
the division never raises for any `Total Circ` value. -/
theorem discard_ratio_zero_total_circ (r : Row) :
    (r.totalCirc = 0 → (deriveRow r).discardRatio = r.losses) ∧
      guardZero r.totalCirc ≠ 0 := by
  refine ⟨fun h => ?_, guardZero_ne_zero r.totalCirc⟩
  simp [deriveRow, guardZero, h]

/-- C3 witness: on a concrete row with `Total Circ = 0` and `Losses = 7`,
the derived discard ratio is 7 and the guarded divisor is nonzero. -/
theorem discard_ratio_zero_total_circ_witness :
    (deriveRow rowZeroCirc).discardRatio = rowZeroCirc.losses ∧
      guardZero rowZeroCirc.totalCirc ≠ 0 :=
  ⟨(discard_ratio_zero_total_circ rowZeroCirc).1 rfl,
    (discard_ratio_zero_total_circ rowZeroCirc).2⟩

/-- C6: for every row of the derived table, the `Mud Cutting Ratio` equals
exactly 100 times the `Discard Ratio` of the same row. -/
theorem mud_cutting_ratio_is_hundred_discard (r : Row) :
    (deriveRow r).mudCuttingRatio = 100 * (deriveRow r).discardRatio := by
  simp [deriveRow]
  ring

/-- C7: for every row of the derived table, `Top Deck SCE` is 0.6 times
`Losses`, `Bottom Deck SCE` is 0.4 times `Losses`, and their sum is exactly
`Losses` (a fixed 60/40 allocation of the loss volume). -/
theorem deck_sce_split (r : Row) :
    (deriveRow r).topDeckSCE = 0.6 * r.losses ∧
      (deriveRow r).bottomDeckSCE = 0.4 * r.losses ∧
      (deriveRow r).topDeckSCE + (deriveRow r).bottomDeckSCE = r.losses := by
  refine ⟨?_, ?_, ?_⟩ <;> simp [deriveRow] <;> ring

/-- C8: for the clipped wear-index variant (modelled from the spec, see
`wearIndexRaw`), any input driving the raw formula above 100 is reported as
exactly 100, and the clipped index never exceeds 100. -/
theorem wear_index_clip (wf wr flow rheo denom : ℚ) :
    (100 < wearIndexRaw wf wr flow rheo denom →
      wearIndexClipped wf wr flow rheo denom = 100) ∧
      wearIndexClipped wf wr flow rheo denom ≤ 100 := by
  refine ⟨fun h => ?_, min_le_right _ _⟩
  exact min_eq_right h.le

/-- C8 witness: with unit flow weight, flow 200 and denominator 1 the raw
index is 200, and the clipped variant reports exactly 100. -/
theorem wear_index_clip_witness :
    100 < wearIndexRaw 1 0 200 0 1 ∧ wearIndexClipped 1 0 200 0 1 = 100 := by
  have h : (100 : ℚ) < wearIndexRaw 1 0 200 0 1 := by
    norm_num [wearIndexRaw, guardZero]
  exact ⟨h, (wear_index_clip 1 0 200 0 1).1 h⟩

/-- Two sample coerced rows for well "A" whose derived ROP values are 50 and
70 (depth/hours = 100/2 and 140/2). -/
def rowWellA1 : Row :=
  { wellName := "A", rigName := "R", depth := 100, drillingHrs := 2, baseOil := 0,
    water := 0, barite := 0, chemical := 0, losses := 0, totalCirc := 1, pv := 0,
    yp := 0, mudWeight := 0, aveTemp := 0 }

/-- Companion row to `rowWellA1`, same well, ROP 70. -/
def rowWellA2 : Row :=
  { rowWellA1 with depth := 140 }

/-- C5: the grouped comparison table aggregates the ROP column with the
arithmetic mean per group (before the final 2-decimal rounding), and on two
rows for well "A" with ROP 50 and 70 the aggregate mean ROP of group "A" is
exactly 60, also after rounding. -/
theorem grouped_mean_rop :
    (∀ (m : CompareMode) (g : String) (rows : List DerivedRow),
      aggMeanROP m g rows = arithMean ((groupRows m g rows).map DerivedRow.rop)) ∧
      (deriveRow rowWellA1).rop = 50 ∧ (deriveRow rowWellA2).rop = 70 ∧
      aggMeanROP .wellName "A" (deriveTable [rowWellA1, rowWellA2]) = 60 ∧
      compMeanROP .wellName "A" (deriveTable [rowWellA1, rowWellA2]) = 60 := by
  refine ⟨fun m g rows => by simp [aggMeanROP, arithMean, List.length_map], ?_, ?_, ?_, ?_⟩
  · norm_num [deriveRow, guardZero, rowWellA1]
  · norm_num [deriveRow, guardZero, rowWellA2, rowWellA1]
  · norm_num [aggMeanROP, groupRows, deriveTable, modeKey, deriveRow, guardZero,
      rowWellA1, rowWellA2, List.filter]
  · norm_num [compMeanROP, round2, roundHalfEven, aggMeanROP, groupRows, deriveTable,
      modeKey, deriveRow, guardZero, rowWellA1, rowWellA2, List.filter]

/-- A valid upload whose text sets only `MUD WT 9`. -/
def fileDoc1 : UploadedFile :=
  { name := "doc1.pdf", content := .ok ("MUD WT 9").toList }

/-- An upload that is not a valid PDF: decoding raises. -/
def fileDoc2 : UploadedFile :=
  { name := "doc2.pdf", content := .error "cannot open broken document" }

/-- A valid upload whose text sets only `MUD WT 11`. -/
def fileDoc3 : UploadedFile :=
  { name := "doc3.pdf", content := .ok ("MUD WT 11").toList }

/-- C4: for every list of uploaded documents, the successful extractions
produce the record rows in upload order and each failing document produces
exactly one error message naming it (try/except per item); in particular,
for the 3-document batch where document 2 is not a valid PDF, the table has
exactly the 2 rows of documents 1 and 3 (in order) and the single error
names document 2. -/
theorem upload_batch_isolation :
    (∀ files : List UploadedFile,
      (processUploads files).1 = files.filterMap (fun f => (parseFile f).toOption) ∧
      (processUploads files).2 = files.filterMap (fun f =>
        match parseFile f with
        | .ok _ => none
        | .error e => some ("Failed to parse " ++ f.name ++ ": " ++ e))) ∧
      (processUploads [fileDoc1, fileDoc2, fileDoc3]).1.length = 2 ∧
      (processUploads [fileDoc1, fileDoc2, fileDoc3]).1.map Record.mudWeight = ["9", "11"] ∧
      (processUploads [fileDoc1, fileDoc2, fileDoc3]).2 =
        ["Failed to parse doc2.pdf: cannot open broken document"] := by
  refine ⟨fun files => ?_, rfl, rfl, rfl⟩
  induction files with
  | nil => exact ⟨rfl, rfl⟩
  | cons f rest ih =>
    simp only [processUploads, List.filterMap_cons]
    cases h : parseFile f with
    | ok r => simp [h, Except.toOption, ih.1, ih.2]
    | error e => simp [h, Except.toOption, ih.1, ih.2]

/-- Page text whose Losses capture is negative (`-5`) and whose dilution
fields sum to its negation: Base Oil 5, Water 0, Chemical 0. -/
def textNegLoss : List Char := ("Oil Added (+) 5\nLeft on Cuttings (-) -5\n").toList

/-- The record extracted from `textNegLoss`: every absent field defaults to
"0", Base Oil is "5" and Losses is "-5". -/
def recNegLoss : Record :=
  { wellName := "0", rigName := "0", bitSize := "0", depth := "0", drillingHrs := "0",
    baseOil := "5", water := "0", barite := "0", chemical := "0", losses := "-5",
    inPits := "0", inHole := "0", totalCirc := to_float "0" + to_float "0",
    mudWeight := "0", pv := "0", yp := "0", aveTemp := "0" }

/-- C10: the `DSRE%` zero-guard replaces only a `Losses` value equal to 0,
not a zero denominator: on the extracted row of `textNegLoss` the Losses
value is -5 (the Losses pattern admits negative captures), the guard leaves
it unchanged, and the `DSRE%` denominator `Total Dilution + Losses` is
exactly 0, so the division is performed with divisor 0. -/
theorem dsre_guard_on_losses_not_denominator :
    extract_volume_format textNegLoss = .ok recNegLoss ∧
      (toRow recNegLoss).losses = -5 ∧ (toRow recNegLoss).losses ≠ 0 ∧
      guardZero (toRow recNegLoss).losses = (toRow recNegLoss).losses ∧
      dsreDenom (toRow recNegLoss) = 0 := by
  have hl : (toRow recNegLoss).losses = -5 := rfl
  refine ⟨rfl, hl, ?_, ?_, ?_⟩
  · rw [hl]; norm_num
  · rw [hl]; norm_num [guardZero]
  · have hb : (toRow recNegLoss).baseOil = 5 := rfl
    have hw : (toRow recNegLoss).water = 0 := rfl
    have hc : (toRow recNegLoss).chemical = 0 := rfl
    unfold dsreDenom
    rw [hb, hw, hc, hl]
    norm_num [guardZero]

/-- C2 counterexample: on the page text `In Pits . bbl` the In Pits pattern
matches with capture `"."`, which `float()` cannot convert, so
`extract_volume_format` raises even though the document decoded and its page
text was extracted successfully. -/
theorem extract_volume_format_raises_on_dot_capture :
    extract_volume_format (("In Pits . bbl").toList) =
      .error "could not convert string to float" := rfl

/-- C2 (amended): whenever the In Pits and In Hole values (captured or
defaulted) are valid float literals, `extract_volume_format` never raises:
every per-field pattern-match failure is silently resolved to the default
and a complete field record is returned. -/
theorem extract_volume_format_total_on_float_captures (text : List Char)
    (h1 : (pyFloat (safe_search patInPits text)).isSome = true)
    (h2 : (pyFloat (safe_search patInHole text)).isSome = true) :
    ∃ rec, extract_volume_format text = .ok rec := by
  unfold extract_volume_format
  cases hp : pyFloat (safe_search patInPits text) with
  | none => rw [hp] at h1; simp at h1
  | some a =>
    cases hq : pyFloat (safe_search patInHole text) with
    | none => rw [hq] at h2; simp at h2
    | some b => exact ⟨_, rfl⟩

/-- C2 witness: on the empty text both captures default to "0", which parses,
so extraction succeeds. -/
theorem extract_volume_format_total_on_float_captures_witness :
    ∃ rec, extract_volume_format [] = .ok rec :=
  extract_volume_format_total_on_float_captures [] rfl rfl

/-- `str.replace(',', '')` leaves no comma in its output. -/
theorem removeCommas_no_comma (s : String) :
    (removeCommas s).toList.all (fun c => c != ',') = true := by
  have h : (removeCommas s).toList = s.toList.filter (fun c => c != ',') := rfl
  rw [h, List.all_eq_true]
  intro c hc
  exact (List.mem_filter.mp hc).2

/-- Page text with a comma both in the Well Name and in the Drilled Depth
capture. -/
def textDepthComma : List Char := ("Well Name: A, B\nDrilled Depth\n12,345").toList

/-- The record extracted from `textDepthComma`: the Well Name keeps its comma
verbatim while the Depth loses it. -/
def recDepthComma : Record :=
  { wellName := "A, B", rigName := "0", bitSize := "0", depth := "12345",
    drillingHrs := "0", baseOil := "0", water := "0", barite := "0", chemical := "0",
    losses := "0", inPits := "0", inHole := "0",
    totalCirc := to_float "0" + to_float "0",
    mudWeight := "0", pv := "0", yp := "0", aveTemp := "0" }

/-- C9: for every text, the stored Depth field is the captured group with all
comma characters removed (so it never contains a comma), unlike the other
fields: on `textDepthComma` the depth capture `"12,345"` is stored as
`"12345"` while the Well Name keeps its comma verbatim. -/
theorem depth_commas_removed :
    (∀ (text : List Char) (rec : Record), extract_volume_format text = .ok rec →
      rec.depth = removeCommas (safe_search patDepth text) ∧
      rec.depth.toList.all (fun c => c != ',') = true) ∧
      extract_volume_format textDepthComma = .ok recDepthComma ∧
      recDepthComma.depth = "12345" ∧ recDepthComma.wellName = "A, B" ∧
      safe_search patDepth textDepthComma = "12,345" := by
  refine ⟨fun text rec h => ?_, rfl, rfl, rfl, rfl⟩
  unfold extract_volume_format at h
  split at h
  · injection h with h
    subst h
    exact ⟨rfl, removeCommas_no_comma _⟩
  · simp at h

/-- C9 witness: the stored Depth of the concrete extraction is the
comma-stripped capture and contains no comma. -/
theorem depth_commas_removed_witness :
    recDepthComma.depth = removeCommas (safe_search patDepth textDepthComma) ∧
      recDepthComma.depth.toList.all (fun c => c != ',') = true :=
  depth_commas_removed.1 textDepthComma recDepthComma rfl

/-- The first element surviving `dropWhile p` does not satisfy `p`. -/
theorem head_dropWhile (p : Char → Bool) (l : List Char) (c : Char)
    (h : (l.dropWhile p).head? = some c) : p c = false := by
  induction l with
  | nil => simp [List.dropWhile] at h
  | cons a t ih =>
    rw [List.dropWhile_cons] at h
    by_cases hp : p a = true
    · rw [if_pos hp] at h; exact ih h
    · rw [if_neg hp] at h
      simp only [List.head?_cons, Option.some.injEq] at h
      subst h
      exact eq_false_of_ne_true hp

/-- `dropWhile` keeps the last element of a list it does not empty. -/
theorem getLast_dropWhile (p : Char → Bool) (l : List Char)
    (h : l.dropWhile p ≠ []) : (l.dropWhile p).getLast? = l.getLast? := by
  conv_rhs => rw [← List.takeWhile_append_dropWhile (p := p) (l := l)]
  exact (List.getLast?_append_of_ne_nil _ h).symm

/-- `strip` decomposition: the original string is all-whitespace padding
around its stripped core. -/
theorem pyStrip_decomp (g : List Char) :
    ∃ pre post, (∀ c ∈ pre, isPySpace c = true) ∧ (∀ c ∈ post, isPySpace c = true) ∧
      g = pre ++ pyStrip g ++ post := by
  refine ⟨g.takeWhile isPySpace, ((g.dropWhile isPySpace).reverse.takeWhile isPySpace).reverse,
    fun c hc => List.mem_takeWhile_imp hc, fun c hc => ?_, ?_⟩
  · exact List.mem_takeWhile_imp (List.mem_reverse.mp hc)
  · conv_lhs => rw [← List.takeWhile_append_dropWhile (p := isPySpace) (l := g)]
    rw [List.append_assoc]
    congr 1
    unfold pyStrip
    conv_lhs => rw [show g.dropWhile isPySpace
      = ((g.dropWhile isPySpace).reverse.takeWhile isPySpace
          ++ (g.dropWhile isPySpace).reverse.dropWhile isPySpace).reverse by
        rw [List.takeWhile_append_dropWhile, List.reverse_reverse]]
    rw [List.reverse_append]

/-- The stripped string never starts with whitespace. -/
theorem pyStrip_head_not_space (g : List Char) (c : Char)
    (h : (pyStrip g).head? = some c) : isPySpace c = false := by
  unfold pyStrip at h
  rw [List.head?_reverse] at h
  have hne : (g.dropWhile isPySpace).reverse.dropWhile isPySpace ≠ [] := by
    intro hnil
    rw [hnil] at h
    simp at h
  rw [getLast_dropWhile _ _ hne, List.getLast?_reverse] at h
  exact head_dropWhile _ _ _ h

/-- The stripped string never ends with whitespace. -/
theorem pyStrip_last_not_space (g : List Char) (c : Char)
    (h : (pyStrip g).getLast? = some c) : isPySpace c = false := by
  unfold pyStrip at h
  rw [List.getLast?_reverse] at h
  exact head_dropWhile _ _ _ h

/-- `search` returns the capture of the match at the leftmost matching start
position: some position yields the result and every earlier position fails. -/
theorem search_first (p : Pattern) :
    ∀ (text : List Char) (g : List Char), search p text = some g →
      ∃ i, i ≤ text.length ∧ matchAt p (text.drop i) = some g ∧
        ∀ j < i, matchAt p (text.drop j) = none := by
  intro text
  induction text with
  | nil =>
    intro g h
    exact ⟨0, Nat.le_refl 0, h, fun j hj => absurd hj (Nat.not_lt_zero j)⟩
  | cons c rest ih =>
    intro g h
    unfold search at h
    cases hm : matchAt p (c :: rest) with
    | some g0 =>
      rw [hm] at h
      cases h
      exact ⟨0, Nat.zero_le _, hm, fun j hj => absurd hj (Nat.not_lt_zero j)⟩
    | none =>
      rw [hm] at h
      obtain ⟨i, hle, hmi, hall⟩ := ih g h
      refine ⟨i + 1, Nat.succ_le_succ hle, hmi, fun j hj => ?_⟩
      cases j with
      | zero => exact hm
      | succ j0 => exact hall j0 (Nat.lt_of_succ_lt_succ hj)

/-- C1: for every pattern and text, `safe_search` returns the first
(leftmost) case-insensitive match's capture group trimmed of surrounding
whitespace — the returned value is the capture with all-whitespace padding
removed, starts and ends with non-whitespace — and returns the default
string `"0"` when no match exists. -/
theorem safe_search_first_match_trimmed_or_default (p : Pattern) (text : List Char) :
    (∀ g, search p text = some g →
      safe_search p text = String.mk (pyStrip g) ∧
      (∃ i, i ≤ text.length ∧ matchAt p (text.drop i) = some g ∧
        ∀ j < i, matchAt p (text.drop j) = none) ∧
      (∃ pre post, (∀ c ∈ pre, isPySpace c = true) ∧ (∀ c ∈ post, isPySpace c = true) ∧
        g = pre ++ pyStrip g ++ post) ∧
      (∀ c, (pyStrip g).head? = some c → isPySpace c = false) ∧
      (∀ c, (pyStrip g).getLast? = some c → isPySpace c = false)) ∧
    (search p text = none → safe_search p text = "0") := by
  constructor
  · intro g hg
    refine ⟨?_, search_first p text g hg, pyStrip_decomp g,
      pyStrip_head_not_space g, pyStrip_last_not_space g⟩
    unfold safe_search
    rw [hg]
  · intro hn
    unfold safe_search
    rw [hn]

/-- C1 witness: on `MUD WT 10.2` the Mud Weight pattern matches with capture
`10.2` and `safe_search` returns it stripped; on the empty text the Depth
pattern has no match and `safe_search` returns `"0"`. -/
theorem safe_search_first_match_trimmed_or_default_witness :
    safe_search patMudWeight (("MUD WT 10.2").toList) = String.mk (pyStrip (("10.2").toList)) ∧
      safe_search patDepth [] = "0" :=
  ⟨((safe_search_first_match_trimmed_or_default patMudWeight
      (("MUD WT 10.2").toList)).1 (("10.2").toList) rfl).1,
    (safe_search_first_match_trimmed_or_default patDepth []).2 rfl⟩
